import Mathlib

/-
Shallow embedding of Hypodermic's resolution engine
(src/Hypodermic/ComponentContext.h) for checking the specification's
claims about singular resolution, plural resolution, the
auto-registration fallback, and the locking / per-call-state structure.

Modelling conventions:
- TypeAliasKey and instances are identified by natural numbers.
- A RegistrationContext carries the identity of its registration
  (regId) and the instance its LifetimeScope yields when
  getOrCreateComponent is invoked for it (produce : Option Instance,
  none modelling a null shared_ptr).  LifetimeScope internals are
  external collaborators (not under src/), so getOrCreateComponent is
  modelled from the spec as the deterministic produce-or-reuse outcome
  attached to the registration context.
- The registry (IRegistrationScope) is external to the source file as
  well; its lookup and insertion contract is modelled from the spec
  (section 4.1): tryGetRegistrations returns the full ordered list for
  a key (none modelling the C++ overload returning false), and
  addRegistration appends to the ordered sequence for the key, never
  removing prior entries.
- The mutable state of a ComponentContext, for the claims at hand, is
  its registry.  The environment (Env) bundles the two immutable
  collaborators of ComponentContext: the compile-time trait
  HasAutowireableConstructor and the runtime registration builder.
-/

namespace Hypodermic

abbrev TypeAliasKey := Nat

abbrev Instance := Nat

/-- A RegistrationContext pairs a registration identity with the
instance its LifetimeScope yields on getOrCreateComponent (none models
a null shared_ptr). -/
structure RegistrationContext where
  regId : Nat
  produce : Option Instance
deriving DecidableEq

/-- The registry mapping: an association list from TypeAliasKey to the
ordered sequence of RegistrationContexts registered for that key. -/
abbrev Registry := List (TypeAliasKey × List RegistrationContext)

/-- Lookup of the ordered registration list for a key; none models
IRegistrationScope::tryGetRegistrations returning false. -/
def lookupRegistry : Registry → TypeAliasKey → Option (List RegistrationContext)
  | [], _ => none
  | (k, rcs) :: rest, key => if k = key then some rcs else lookupRegistry rest key

/-- Modelled from the spec: IRegistrationScope::addRegistration (whose
implementation is not under src/) appends the new RegistrationContext
to the ordered sequence for the key, never removing prior entries
(spec section 4.1). -/
def addToRegistry : Registry → TypeAliasKey → RegistrationContext → Registry
  | [], key, rc => [(key, [rc])]
  | (k, rcs) :: rest, key, rc =>
      if k = key then (k, rcs ++ [rc]) :: rest
      else (k, rcs) :: addToRegistry rest key rc

/-- The ComponentContext state relevant to the claims: its registry
(m_registrationScope's contents). -/
structure ComponentContext where
  registry : Registry
deriving DecidableEq

/-- The immutable collaborators of ComponentContext: the trait
Traits::HasAutowireableConstructor (a compile-time predicate on the
resolved type, here keyed by its TypeAliasKey) and
m_runtimeRegistrationBuilder's build, which yields the synthesized
RegistrationContext for an auto-constructible type. -/
structure Env where
  hasAutowireableConstructor : TypeAliasKey → Bool
  buildRuntimeRegistration : TypeAliasKey → RegistrationContext

/-- ComponentContext::tryGetRegistrations (line 118): delegates to the
registration scope's lookup. -/
def tryGetRegistrations (ctx : ComponentContext) (key : TypeAliasKey) :
    Option (List RegistrationContext) :=
  lookupRegistry ctx.registry key

/-- Insertion of a registration built for the given key into the
ComponentContext's registration scope. -/
def addRegistration (ctx : ComponentContext) (key : TypeAliasKey)
    (rc : RegistrationContext) : ComponentContext :=
  { registry := addToRegistry ctx.registry key rc }

/-- Modelled from the spec: LifetimeScope::getOrCreateComponent (the
scope strategy is an external collaborator, not under src/) yields the
registration context's produce-or-reuse outcome. -/
def getOrCreateComponent (rc : RegistrationContext) : Option Instance :=
  rc.produce

/-- ComponentContext::resolve(const TypeAliasKey&, const shared_ptr of
RegistrationContext&) (lines 86-95): constructs a ResolutionContext,
takes the mutex, and delegates to the registration context's scope. -/
def resolveWithContext (rc : RegistrationContext) : Option Instance :=
  getOrCreateComponent rc

/-- ComponentContext::resolve(const TypeAliasKey&) (lines 73-84): look
up the registrations; return null when the lookup fails or yields an
empty vector; otherwise resolve via the last registration context
(registrationContexts.back()). -/
def resolveKey (ctx : ComponentContext) (key : TypeAliasKey) : Option Instance :=
  match tryGetRegistrations ctx key with
  | none => none
  | some rcs =>
    match rcs.getLast? with
    | none => none
    | some rc => resolveWithContext rc

/-- ComponentContext::tryToRegisterType (lines 142-160): when T has an
autowireable constructor, build a runtime registration and add it to
the scope, returning true; otherwise return false and leave the scope
untouched. -/
def tryToRegisterType (env : Env) (ctx : ComponentContext) (key : TypeAliasKey) :
    Bool × ComponentContext :=
  if env.hasAutowireableConstructor key then
    (true, addRegistration ctx key (env.buildRuntimeRegistration key))
  else
    (false, ctx)

/-- ComponentContext::resolveIfTypeCanBeRegistered (lines 133-140):
if the type cannot be registered, return null; otherwise retry the
key-based resolution once on the updated scope. -/
def resolveIfTypeCanBeRegistered (env : Env) (ctx : ComponentContext)
    (key : TypeAliasKey) : Option Instance × ComponentContext :=
  match tryToRegisterType env ctx key with
  | (false, c) => (none, c)
  | (true, c) => (resolveKey c key, c)

/-- ComponentContext::resolve of T (lines 37-47): resolve by key; if an
instance was produced return it, otherwise fall through to
resolveIfTypeCanBeRegistered. -/
def resolve (env : Env) (ctx : ComponentContext) (key : TypeAliasKey) :
    Option Instance × ComponentContext :=
  match resolveKey ctx key with
  | some i => (some i, ctx)
  | none => resolveIfTypeCanBeRegistered env ctx key

/-- ComponentContext::resolveAll(const TypeAliasKey&) together with the
loop of resolveAll(const TypeAliasKey&, const vector&) (lines 97-116):
empty result when the lookup fails, otherwise one resolve per
registration context, in registration order (push_back order). -/
def resolveAllKey (ctx : ComponentContext) (key : TypeAliasKey) :
    List (Option Instance) :=
  match tryGetRegistrations ctx key with
  | none => []
  | some rcs => rcs.map resolveWithContext

/-- ComponentContext::resolveAll of T (lines 54-60): forwards to the
key-based overload. -/
def resolveAll (ctx : ComponentContext) (key : TypeAliasKey) :
    List (Option Instance) :=
  resolveAllKey ctx key

/-
Event-trace view of the same code paths, used for the claims about the
mutex discipline and the per-call ResolutionContext.  Each event is
paired with the number of times the current thread holds the recursive
mutex m_mutex at the moment the event happens (the acquire event is
annotated with the count before acquiring, the release event with the
count before releasing).  Factory-internal sub-resolutions performed
inside getOrCreateComponent belong to external code (the factories and
lifetime scopes are not under src/) and are not expanded here; the
traces below are the events ComponentContext.h itself performs on one
call.
-/

/-- Events performed by ComponentContext during resolution. -/
inductive REvent where
  | lookupRegistrations : TypeAliasKey → REvent
  | selectLastRegistration : Nat → REvent
  | constructResolutionContext : REvent
  | acquireMutex : REvent
  | getOrCreateComponentCall : Nat → REvent
  | releaseMutex : REvent
  | addRegistrationCall : Nat → REvent
deriving DecidableEq

/-- Recognizer for the registry-insertion event. -/
def isAddRegistrationCall : REvent → Bool
  | .addRegistrationCall _ => true
  | _ => false

/-- Recognizer for the ResolutionContext-construction event. -/
def isConstructResolutionContext : REvent → Bool
  | .constructResolutionContext => true
  | _ => false

/-- Recognizer for the getOrCreateComponent invocation event. -/
def isGetOrCreateComponentCall : REvent → Bool
  | .getOrCreateComponentCall _ => true
  | _ => false

/-- Recognizer for the selection of the last registration context. -/
def isSelectLastRegistration : REvent → Bool
  | .selectLastRegistration _ => true
  | _ => false

/-- Trace of ComponentContext::resolve(key, registrationContext)
(lines 86-95), entered while the current thread holds the mutex d
times: construct the ResolutionContext from the member activation
stacks, acquire m_mutex via the lock_guard, invoke the scope's
getOrCreateComponent, and release the mutex when the guard is
destroyed. -/
def resolveWithContextTrace (d : Nat) (rc : RegistrationContext) :
    List (REvent × Nat) :=
  [(.constructResolutionContext, d), (.acquireMutex, d),
   (.getOrCreateComponentCall rc.regId, d + 1), (.releaseMutex, d + 1)]

/-- Trace of ComponentContext::resolve(key) (lines 73-84): the lookup,
then, when a non-empty registration list was found, the selection of
its back() followed by the guarded scope invocation. -/
def resolveKeyTrace (d : Nat) (ctx : ComponentContext) (key : TypeAliasKey) :
    List (REvent × Nat) :=
  (.lookupRegistrations key, d) ::
    match tryGetRegistrations ctx key with
    | none => []
    | some rcs =>
      match rcs.getLast? with
      | none => []
      | some rc =>
        (.selectLastRegistration rc.regId, d) :: resolveWithContextTrace d rc

/-- Trace of a top-level ComponentContext::resolve of T (lines 37-47,
entered with the mutex not held): the key-based resolution, followed,
when it yielded null and T is auto-constructible, by the registry
insertion of tryToRegisterType and the single retry of
resolveIfTypeCanBeRegistered. -/
def resolveTrace (env : Env) (ctx : ComponentContext) (key : TypeAliasKey) :
    List (REvent × Nat) :=
  resolveKeyTrace 0 ctx key ++
    match resolveKey ctx key with
    | some _ => []
    | none =>
      if env.hasAutowireableConstructor key then
        (.addRegistrationCall (env.buildRuntimeRegistration key).regId, 0) ::
          resolveKeyTrace 0
            (addRegistration ctx key (env.buildRuntimeRegistration key)) key
      else []

/-- Trace of a top-level ComponentContext::resolveAll of T
(lines 54-60 and 97-116): the lookup, then one guarded
resolve(key, registrationContext) per registration context, in
order. -/
def resolveAllKeyTrace (d : Nat) (ctx : ComponentContext) (key : TypeAliasKey) :
    List (REvent × Nat) :=
  (.lookupRegistrations key, d) ::
    match tryGetRegistrations ctx key with
    | none => []
    | some rcs => rcs.flatMap (resolveWithContextTrace d)

/-- Number of ResolutionContext constructions in a trace. -/
def resolutionContextCount (tr : List (REvent × Nat)) : Nat :=
  tr.countP fun p => isConstructResolutionContext p.1

/-- Claim predicate: every registry insertion in the trace happens
while the mutex is held (the claim of spec section 5 for lazy
auto-registration). -/
def insertionsUnderMutex (tr : List (REvent × Nat)) : Bool :=
  tr.all fun p => !(isAddRegistrationCall p.1) || p.2 != 0

/-- Claim predicate: the trace performs no registry insertion at
all. -/
def registryInsertionFree (tr : List (REvent × Nat)) : Bool :=
  tr.all fun p => !(isAddRegistrationCall p.1)

/-- Observed mutex discipline of ComponentContext.h at top level:
getOrCreateComponent is invoked with the mutex held exactly once,
while the selection of the registration context and the registry
insertion happen with the mutex not held. -/
def mutexUse (p : REvent × Nat) : Bool :=
  match p.1 with
  | .getOrCreateComponentCall _ => p.2 == 1
  | .addRegistrationCall _ => p.2 == 0
  | .selectLastRegistration _ => p.2 == 0
  | _ => true

/-
General lemmas about the embedding, shared by the claim theorems.
-/

/-- Looking up the key just inserted into the registry yields the
previous sequence (empty when the key was absent) with the new
registration context appended. -/
theorem lookupRegistry_addToRegistry_self (reg : Registry) (key : TypeAliasKey)
    (rc : RegistrationContext) :
    lookupRegistry (addToRegistry reg key rc) key =
      some ((lookupRegistry reg key).getD [] ++ [rc]) := by
  induction reg with
  | nil => simp [addToRegistry, lookupRegistry]
  | cons head rest ih =>
    obtain ⟨k, rcs⟩ := head
    by_cases hk : k = key <;>
      simp [addToRegistry, lookupRegistry, hk, ih]

/-- Each guarded scope invocation constructs exactly one
ResolutionContext. -/
theorem resolutionContextCount_resolveWithContextTrace (d : Nat)
    (rc : RegistrationContext) :
    resolutionContextCount (resolveWithContextTrace d rc) = 1 := rfl

/-- One ResolutionContext is constructed per registration context in
the resolveAll loop. -/
theorem resolutionContextCount_flatMap (d : Nat)
    (rcs : List RegistrationContext) :
    resolutionContextCount (rcs.flatMap (resolveWithContextTrace d)) =
      rcs.length := by
  induction rcs with
  | nil => rfl
  | cons rc rest ih =>
    simp only [List.flatMap_cons, resolutionContextCount, List.countP_append]
    rw [show (resolveWithContextTrace d rc).countP
          (fun p => isConstructResolutionContext p.1) = 1 from rfl]
    simp [resolutionContextCount] at ih
    simp [ih, Nat.add_comm]

/-- The mutex discipline holds on every guarded scope invocation
entered with the mutex not held. -/
theorem mutexUse_resolveWithContextTrace (rc : RegistrationContext) :
    (resolveWithContextTrace 0 rc).all mutexUse = true := rfl

/-- The mutex discipline holds on the whole key-based singular
resolution path. -/
theorem mutexUse_resolveKeyTrace (ctx : ComponentContext) (key : TypeAliasKey) :
    (resolveKeyTrace 0 ctx key).all mutexUse = true := by
  unfold resolveKeyTrace
  cases h1 : tryGetRegistrations ctx key with
  | none => rfl
  | some rcs =>
    cases h2 : rcs.getLast? with
    | none => simp only [h2]; rfl
    | some rc => simp only [h2]; rfl

/-
Concrete fixtures used by the witness and counterexample theorems.
-/

/-- A registration context producing instance 10. -/
def rcA : RegistrationContext := ⟨1, some 10⟩

/-- A registration context producing instance 20. -/
def rcB : RegistrationContext := ⟨2, some 20⟩

/-- A registration context whose scope declines to produce. -/
def rcNull : RegistrationContext := ⟨3, none⟩

/-- Environment in which no type is auto-constructible. -/
def envNoAuto : Env := ⟨fun _ => false, fun _ => ⟨0, none⟩⟩

/-- Environment in which every type is auto-constructible; the built
runtime registration produces instance 42. -/
def envAuto : Env := ⟨fun _ => true, fun _ => ⟨7, some 42⟩⟩

/-- Context with two registrations for key 0, registered in order
rcA then rcB. -/
def ctxTwo : ComponentContext := ⟨[(0, [rcA, rcB])]⟩

/-- Context whose sole registration for key 0 produces nothing. -/
def ctxNull : ComponentContext := ⟨[(0, [rcNull])]⟩

/-- Context whose registry has an entry for key 0 holding an empty
registration sequence. -/
def ctxEmptyEntry : ComponentContext := ⟨[(0, [])]⟩

/-- Context with an empty registry. -/
def ctxBare : ComponentContext := ⟨[]⟩

/-- The context obtained from ctxBare by the auto-registration that a
resolve of key 0 in envAuto performs. -/
def ctxAfterAuto : ComponentContext := ⟨[(0, [⟨7, some 42⟩])]⟩

/-
Claim theorems.
-/

/-- C1: with at least one RegistrationContext registered for the key,
the singular key-based resolution selects the last-registered context
(the final element of the lookup result) and produces its instance;
the public resolve then returns that instance with the context
unchanged, so earlier registrations are shadowed but remain in the
registry. -/
theorem claim1_resolve_selects_last_registration
    (env : Env) (ctx : ComponentContext) (key : TypeAliasKey)
    (rcs : List RegistrationContext) (rc : RegistrationContext) (i : Instance)
    (h1 : tryGetRegistrations ctx key = some rcs)
    (h2 : rcs.getLast? = some rc)
    (h3 : rc.produce = some i) :
    resolveKey ctx key = some i ∧
    resolve env ctx key = (some i, ctx) ∧
    tryGetRegistrations (resolve env ctx key).2 key = some rcs := by
  have hk : resolveKey ctx key = some i := by
    simp [resolveKey, h1, h2, resolveWithContext, getOrCreateComponent, h3]
  have hr : resolve env ctx key = (some i, ctx) := by
    simp [resolve, hk]
  exact ⟨hk, hr, by rw [hr]; exact h1⟩

/-- Witness for C1 on the fixture: two registrations for key 0 in
order rcA, rcB; singular resolution produces rcB's instance 20 and
leaves both registrations in place. -/
theorem claim1_witness :
    resolveKey ctxTwo 0 = some 20 ∧
    resolve envNoAuto ctxTwo 0 = (some 20, ctxTwo) ∧
    tryGetRegistrations (resolve envNoAuto ctxTwo 0).2 0 = some [rcA, rcB] :=
  claim1_resolve_selects_last_registration envNoAuto ctxTwo 0 [rcA, rcB] rcB 20
    (by decide) (by decide) (by decide)

/-- C2: resolveAll resolves every RegistrationContext registered for
the key, the i-th returned instance coming from the i-th registered
context, preserving registration order. -/
theorem claim2_resolveAll_preserves_order
    (ctx : ComponentContext) (key : TypeAliasKey)
    (rcs : List RegistrationContext) (idx : Nat)
    (h : tryGetRegistrations ctx key = some rcs) :
    resolveAll ctx key = rcs.map resolveWithContext ∧
    (resolveAll ctx key).length = rcs.length ∧
    (resolveAll ctx key)[idx]? = (rcs[idx]?).map resolveWithContext := by
  have h1 : resolveAll ctx key = rcs.map resolveWithContext := by
    simp [resolveAll, resolveAllKey, h]
  exact ⟨h1, by simp [h1], by simp [h1]⟩

/-- Witness for C2 on the fixture: resolveAll over the two
registrations rcA, rcB for key 0 returns their instances 10 and 20 in
registration order. -/
theorem claim2_witness :
    resolveAll ctxTwo 0 = [rcA, rcB].map resolveWithContext ∧
    (resolveAll ctxTwo 0).length = ([rcA, rcB] : List RegistrationContext).length ∧
    (resolveAll ctxTwo 0)[1]? = (([rcA, rcB] : List RegistrationContext)[1]?).map resolveWithContext :=
  claim2_resolveAll_preserves_order ctxTwo 0 [rcA, rcB] 1 (by decide)

/-- C4: with no registration for the key (lookup failing or yielding
an empty entry) and the type not auto-constructible, resolve returns
no instance as a normal return value and leaves the context
unchanged. -/
theorem claim4_unresolvable_returns_none
    (env : Env) (ctx : ComponentContext) (key : TypeAliasKey)
    (h1 : tryGetRegistrations ctx key = none ∨
          tryGetRegistrations ctx key = some [])
    (h2 : env.hasAutowireableConstructor key = false) :
    resolve env ctx key = (none, ctx) := by
  have hk : resolveKey ctx key = none := by
    rcases h1 with h1 | h1 <;> simp [resolveKey, h1]
  simp [resolve, hk, resolveIfTypeCanBeRegistered, tryToRegisterType, h2]

/-- Witness for C4 on the fixture: an empty registry and a
non-auto-constructible key yield no instance. -/
theorem claim4_witness : resolve envNoAuto ctxBare 0 = (none, ctxBare) :=
  claim4_unresolvable_returns_none envNoAuto ctxBare 0 (Or.inl (by decide))
    (by decide)

/-- Looking up the key for which a registration was just added to the
component context yields the previous sequence with the new
registration context appended. -/
theorem tryGetRegistrations_addRegistration_self (ctx : ComponentContext)
    (key : TypeAliasKey) (rc : RegistrationContext) :
    tryGetRegistrations (addRegistration ctx key rc) key =
      some ((tryGetRegistrations ctx key).getD [] ++ [rc]) := by
  simp [tryGetRegistrations, addRegistration, lookupRegistry_addToRegistry_self]

/-- A resolve on a key with no registrations and an auto-constructible
type inserts exactly the built runtime registration and returns the
outcome of a single retry on the updated context. -/
theorem resolve_of_empty_auto (env : Env) (ctx : ComponentContext)
    (key : TypeAliasKey)
    (h1 : tryGetRegistrations ctx key = none)
    (h2 : env.hasAutowireableConstructor key = true) :
    resolve env ctx key =
      (resolveKey (addRegistration ctx key (env.buildRuntimeRegistration key)) key,
       addRegistration ctx key (env.buildRuntimeRegistration key)) ∧
    tryGetRegistrations
        (addRegistration ctx key (env.buildRuntimeRegistration key)) key =
      some [env.buildRuntimeRegistration key] := by
  have hk : resolveKey ctx key = none := by simp [resolveKey, h1]
  refine ⟨?_, ?_⟩
  · simp [resolve, hk, resolveIfTypeCanBeRegistered, tryToRegisterType, h2]
  · rw [tryGetRegistrations_addRegistration_self, h1]
    rfl

/-- C3 counterexample: a registration for key 0 exists but produces no
instance, and the type is auto-constructible; resolve does not return
null with the registry untouched as the claim states — it reaches the
auto-registration fallback, inserts a runtime registration next to the
existing one, and returns the fallback's instance 42. -/
theorem claim3_counterexample :
    tryGetRegistrations ctxNull 0 = some [rcNull] ∧
    rcNull.produce = none ∧
    resolve envAuto ctxNull 0 ≠ (none, ctxNull) ∧
    (resolve envAuto ctxNull 0).1 = some 42 ∧
    (resolve envAuto ctxNull 0).2 ≠ ctxNull := by decide

/-- C3 amended: when the last-registered context for the key produces
no instance, the singular key-based resolution yields null and the
public resolve proceeds to the auto-registration fallback, exactly as
when no registrations exist at all; the call returns null only when
that fallback also yields nothing. -/
theorem claim3_amended_null_production_falls_through_to_fallback
    (env : Env) (ctx : ComponentContext) (key : TypeAliasKey)
    (rcs : List RegistrationContext) (rc : RegistrationContext)
    (h1 : tryGetRegistrations ctx key = some rcs)
    (h2 : rcs.getLast? = some rc)
    (h3 : rc.produce = none) :
    resolveKey ctx key = none ∧
    resolve env ctx key = resolveIfTypeCanBeRegistered env ctx key := by
  have hk : resolveKey ctx key = none := by
    simp [resolveKey, h1, h2, resolveWithContext, getOrCreateComponent, h3]
  exact ⟨hk, by simp [resolve, hk]⟩

/-- Witness for the amended C3 on the fixture: the sole registration
for key 0 produces nothing, so resolve falls through to the
fallback. -/
theorem claim3_witness :
    resolveKey ctxNull 0 = none ∧
    resolve envAuto ctxNull 0 = resolveIfTypeCanBeRegistered envAuto ctxNull 0 :=
  claim3_amended_null_production_falls_through_to_fallback envAuto ctxNull 0
    [rcNull] rcNull (by decide) (by decide) (by decide)

/-- C5: for an auto-constructible key with no registrations, resolve
inserts exactly the one built runtime registration into the registry
and returns the outcome of a single retry of the key-based resolution
on the updated context — even when that retry yields no instance, no
further registration or retry happens. -/
theorem claim5_auto_registration_inserts_and_retries_once
    (env : Env) (ctx : ComponentContext) (key : TypeAliasKey)
    (h1 : tryGetRegistrations ctx key = none)
    (h2 : env.hasAutowireableConstructor key = true) :
    resolve env ctx key =
      (resolveKey (addRegistration ctx key (env.buildRuntimeRegistration key)) key,
       addRegistration ctx key (env.buildRuntimeRegistration key)) ∧
    tryGetRegistrations (resolve env ctx key).2 key =
      some [env.buildRuntimeRegistration key] := by
  obtain ⟨ha, hb⟩ := resolve_of_empty_auto env ctx key h1 h2
  exact ⟨ha, by rw [ha]; exact hb⟩

/-- Witness for C5 on the fixture: resolving key 0 against an empty
registry in the auto-constructible environment inserts exactly one
registration and retries once. -/
theorem claim5_witness :
    resolve envAuto ctxBare 0 =
      (resolveKey (addRegistration ctxBare 0 (envAuto.buildRuntimeRegistration 0)) 0,
       addRegistration ctxBare 0 (envAuto.buildRuntimeRegistration 0)) ∧
    tryGetRegistrations (resolve envAuto ctxBare 0).2 0 =
      some [envAuto.buildRuntimeRegistration 0] :=
  claim5_auto_registration_inserts_and_retries_once envAuto ctxBare 0
    (by decide) (by decide)

/-- C6: after a first successful resolve of an auto-constructible key
with no prior registrations, the resulting context holds exactly one
registration for the key, a subsequent resolveAll returns exactly that
one instance, and a subsequent resolve returns the same instance
without inserting anything further. -/
theorem claim6_auto_registration_happens_at_most_once
    (env : Env) (ctx ctx2 : ComponentContext) (key : TypeAliasKey) (i : Instance)
    (h1 : tryGetRegistrations ctx key = none)
    (h2 : env.hasAutowireableConstructor key = true)
    (h3 : resolve env ctx key = (some i, ctx2)) :
    tryGetRegistrations ctx2 key = some [env.buildRuntimeRegistration key] ∧
    resolveAll ctx2 key = [some i] ∧
    resolve env ctx2 key = (some i, ctx2) := by
  obtain ⟨ha, hb⟩ := resolve_of_empty_auto env ctx key h1 h2
  rw [ha] at h3
  injection h3 with h3a h3b
  subst h3b
  have hprod : (env.buildRuntimeRegistration key).produce = some i := by
    simpa [resolveKey, hb, resolveWithContext, getOrCreateComponent] using h3a
  refine ⟨hb, ?_, ?_⟩
  · simp [resolveAll, resolveAllKey, hb, resolveWithContext,
      getOrCreateComponent, hprod]
  · simp [resolve, h3a]

/-- Witness for C6 on the fixture: the first resolve of key 0 against
the empty registry yields instance 42 and the context holding exactly
the one synthesized registration; resolveAll then returns exactly that
instance and a second resolve re-inserts nothing. -/
theorem claim6_witness :
    tryGetRegistrations ctxAfterAuto 0 = some [envAuto.buildRuntimeRegistration 0] ∧
    resolveAll ctxAfterAuto 0 = [some 42] ∧
    resolve envAuto ctxAfterAuto 0 = (some 42, ctxAfterAuto) :=
  claim6_auto_registration_happens_at_most_once envAuto ctxBare ctxAfterAuto 0 42
    (by decide) (by decide) (by decide)

/-- The guarded scope invocations of the resolveAll loop perform no
registry insertion. -/
theorem registryInsertionFree_flatMap (d : Nat)
    (rcs : List RegistrationContext) :
    registryInsertionFree (rcs.flatMap (resolveWithContextTrace d)) = true := by
  induction rcs with
  | nil => rfl
  | cons rc rest ih =>
    simp only [List.flatMap_cons, registryInsertionFree, List.all_append]
    rw [show (resolveWithContextTrace d rc).all
          (fun p => !(isAddRegistrationCall p.1)) = true from rfl]
    simpa [registryInsertionFree] using ih

/-- The whole resolveAll path performs no registry insertion, whatever
the registry holds. -/
theorem registryInsertionFree_resolveAllKeyTrace (d : Nat)
    (ctx : ComponentContext) (key : TypeAliasKey) :
    registryInsertionFree (resolveAllKeyTrace d ctx key) = true := by
  unfold resolveAllKeyTrace
  cases h : tryGetRegistrations ctx key with
  | none => rfl
  | some rcs =>
    simp only [registryInsertionFree, List.all_cons]
    rw [show (!(isAddRegistrationCall (.lookupRegistrations key))) = true from rfl]
    simpa [registryInsertionFree] using registryInsertionFree_flatMap d rcs

/-- C7: with no registrations for the key (lookup failing or yielding
an empty entry), resolveAll returns the empty sequence, and its event
trace performs no registry insertion, so the registry is left
unchanged and auto-registration is never triggered. -/
theorem claim7_resolveAll_empty_never_auto_registers
    (ctx : ComponentContext) (key : TypeAliasKey)
    (h : tryGetRegistrations ctx key = none ∨
         tryGetRegistrations ctx key = some []) :
    resolveAll ctx key = [] ∧
    registryInsertionFree (resolveAllKeyTrace 0 ctx key) = true := by
  refine ⟨?_, registryInsertionFree_resolveAllKeyTrace 0 ctx key⟩
  rcases h with h | h <;> simp [resolveAll, resolveAllKey, h]

/-- Witness for C7 on the fixture: resolveAll on the empty registry
returns the empty sequence and its trace inserts nothing. -/
theorem claim7_witness :
    resolveAll ctxBare 0 = [] ∧
    registryInsertionFree (resolveAllKeyTrace 0 ctxBare 0) = true :=
  claim7_resolveAll_empty_never_auto_registers ctxBare 0 (Or.inl (by decide))

/-- C10: a lookup that succeeds with an empty registration sequence
makes the singular key-based resolution return null, and the public
resolve then proceeds to the auto-registration fallback, exactly as
for a context whose lookup reports no registrations at all — the two
cases produce the same instance. -/
theorem claim10_empty_lookup_behaves_like_absent
    (env : Env) (ctx ctxN : ComponentContext) (key : TypeAliasKey)
    (h1 : tryGetRegistrations ctx key = some [])
    (h2 : tryGetRegistrations ctxN key = none) :
    resolveKey ctx key = none ∧
    resolveKey ctxN key = none ∧
    resolve env ctx key = resolveIfTypeCanBeRegistered env ctx key ∧
    resolve env ctxN key = resolveIfTypeCanBeRegistered env ctxN key ∧
    (resolve env ctx key).1 = (resolve env ctxN key).1 := by
  have hk1 : resolveKey ctx key = none := by simp [resolveKey, h1]
  have hk2 : resolveKey ctxN key = none := by simp [resolveKey, h2]
  have hr1 : resolve env ctx key = resolveIfTypeCanBeRegistered env ctx key := by
    simp [resolve, hk1]
  have hr2 : resolve env ctxN key = resolveIfTypeCanBeRegistered env ctxN key := by
    simp [resolve, hk2]
  refine ⟨hk1, hk2, hr1, hr2, ?_⟩
  rw [hr1, hr2]
  by_cases ha : env.hasAutowireableConstructor key
  · have e1 := tryGetRegistrations_addRegistration_self ctx key
      (env.buildRuntimeRegistration key)
    have e2 := tryGetRegistrations_addRegistration_self ctxN key
      (env.buildRuntimeRegistration key)
    rw [h1] at e1
    rw [h2] at e2
    simp only [Option.getD_some, Option.getD_none, List.nil_append] at e1 e2
    simp [resolveIfTypeCanBeRegistered, tryToRegisterType, ha, resolveKey, e1, e2]
  · simp [resolveIfTypeCanBeRegistered, tryToRegisterType, ha]

/-- Witness for C10 on the fixtures: the context with an empty entry
for key 0 and the context with no entry at all both fall through to
the fallback and produce the same instance. -/
theorem claim10_witness :
    resolveKey ctxEmptyEntry 0 = none ∧
    resolveKey ctxBare 0 = none ∧
    resolve envAuto ctxEmptyEntry 0 = resolveIfTypeCanBeRegistered envAuto ctxEmptyEntry 0 ∧
    resolve envAuto ctxBare 0 = resolveIfTypeCanBeRegistered envAuto ctxBare 0 ∧
    (resolve envAuto ctxEmptyEntry 0).1 = (resolve envAuto ctxBare 0).1 :=
  claim10_empty_lookup_behaves_like_absent envAuto ctxEmptyEntry ctxBare 0
    (by decide) (by decide)

/-- C8 counterexample: on a top-level resolve that auto-registers, the
registry insertion event occurs while the mutex is not held (lock
count 0), so it is not performed under the resolution mutex as the
claim states; the trace does contain an insertion, so the predicate
does not fail vacuously. -/
theorem claim8_counterexample :
    insertionsUnderMutex (resolveTrace envAuto ctxBare 0) = false ∧
    (resolveTrace envAuto ctxBare 0).any (fun p => isAddRegistrationCall p.1)
      = true := by decide

/-- C8 amended: the re-entrant mutex guards only the invocation of
getOrCreateComponent inside resolve(key, registrationContext); in the
trace of a top-level resolve, every getOrCreateComponent call happens
with the mutex held exactly once, while the selection of the
registration context and the auto-registration insertion happen with
the mutex not held. -/
theorem claim8_amended_mutex_guards_only_getOrCreateComponent
    (env : Env) (ctx : ComponentContext) (key : TypeAliasKey) :
    (resolveTrace env ctx key).all mutexUse = true := by
  unfold resolveTrace
  rw [List.all_append, mutexUse_resolveKeyTrace]
  cases hr : resolveKey ctx key with
  | some i => rfl
  | none =>
    by_cases ha : env.hasAutowireableConstructor key
    · simp only [ha, if_true, List.all_cons, mutexUse_resolveKeyTrace]
      rfl
    · simp [ha]

/-- C9 counterexample: a top-level resolveAll over the context holding
two registrations for key 0 constructs two ResolutionContexts, not the
single one the claim states is created per top-level call. -/
theorem claim9_counterexample :
    resolutionContextCount (resolveAllKeyTrace 0 ctxTwo 0) ≠ 1 := by decide

/-- C9 amended: a ResolutionContext is constructed per invocation of
resolve(key, registrationContext) — one for each guarded scope
invocation — so a top-level resolveAll constructs exactly as many
ResolutionContexts as there are registrations found for the key, not
one per top-level call. -/
theorem claim9_amended_one_resolution_context_per_scope_invocation
    (d : Nat) (ctx : ComponentContext) (key : TypeAliasKey)
    (rc : RegistrationContext) :
    resolutionContextCount (resolveWithContextTrace d rc) = 1 ∧
    resolutionContextCount (resolveAllKeyTrace d ctx key) =
      ((tryGetRegistrations ctx key).getD []).length := by
  refine ⟨rfl, ?_⟩
  unfold resolveAllKeyTrace
  cases h : tryGetRegistrations ctx key with
  | none => rfl
  | some rcs =>
    simp only [Option.getD_some, resolutionContextCount, List.countP_cons]
    simpa [resolutionContextCount] using resolutionContextCount_flatMap d rcs

end Hypodermic
